import Mathlib

/-!
Shallow embedding of `src/contracts/LendingPlatform.sol` (Solidity 0.8, DLoan).

`uint256` values are modelled as `Nat`; Solidity 0.8 checked subtraction is
modelled explicitly where an underflow is reachable (it reverts with a panic,
modelled as `Err.Underflow`).  Addresses are modelled as `Nat` (0 is the zero
address).  Storage mappings are total functions with the zero-initialized
record as default, exactly as EVM storage behaves.  Each external function is
a Lean function from an environment (block timestamp, oracle round data,
outcome of outbound ETH transfers) and a pre-state to `Except Err` of
(post-state, outbound transfers, emitted events); an `Except.error` models a
revert, i.e. the whole operation leaves the state unchanged.
-/

namespace DLoan

/-- 1e18 fixed-point scale (`1e18` in the Solidity source). -/
def SCALE : Nat := 10 ^ 18

/-- Solidity `365 days` in seconds. -/
def YEAR_SECONDS : Nat := 365 * 86400

/-- `MAX_INTEREST_RATE` constant of `LendingPlatform.sol`. -/
def MAX_INTEREST_RATE : Nat := 7

/-- Revert reasons.  Each constructor corresponds to one `require` message in
`LendingPlatform.sol`; `Underflow` is the Solidity 0.8 checked-arithmetic
panic on subtraction. -/
inductive Err where
  | InvalidAmount        -- "Loan amount must be greater than 0"
  | InvalidDuration      -- "Duration must be greater than 0"
  | CollateralMismatch   -- "Collateral must be exactly 2x loan amount"
  | RateTooHigh          -- "Interest rate exceeds maximum allowed (7%)"
  | RateZero             -- "Interest rate must be greater than 0"
  | PausedErr            -- "Paused"
  | RequestNotActive     -- "Request is not active"
  | AmountMismatch       -- "Must send exact loan amount"
  | NotBorrower          -- "Only borrower can repay"
  | AlreadyRepaid        -- "Loan already repaid" / "Loan is already repaid" / "Loan repaid"
  | InvalidRepayAmount   -- "Invalid repay amount"
  | InsufficientPayment  -- "Insufficient repayment"
  | NotExpired           -- "Loan is not expired yet"
  | InvalidPrice         -- "Invalid oracle price"
  | StalePrice           -- "Stale oracle price"
  | TransferFailed       -- any failed outbound call
  | OnlyOwner            -- "Only owner"
  | Underflow            -- checked-arithmetic panic
deriving DecidableEq, Repr

/-- `LoanTypes.LoanRequest`.  Commitments (`bytes32`) are modelled as `Nat`. -/
structure LoanRequest where
  borrower : Nat
  loanAmount : Nat
  duration : Nat
  isActive : Bool
  stake : Nat
  interestRate : Nat
  metadataCommitment : Nat
  encryptedCid : String
  propertyIdCommitment : Nat
  appraisalEncryptedCid : String
  propertyUnits : Nat
deriving DecidableEq, Repr

/-- `LoanTypes.ActiveLoan`. -/
structure ActiveLoan where
  borrower : Nat
  lender : Nat
  loanAmount : Nat
  stake : Nat
  startTimestamp : Nat
  endTime : Nat
  interestRate : Nat
  initialEthPrice : Nat
  propertyUnits : Nat
  isRepaid : Bool
deriving DecidableEq, Repr

/-- The zero-initialized request record (EVM mapping default). -/
def zeroRequest : LoanRequest :=
  ⟨0, 0, 0, false, 0, 0, 0, "", 0, "", 0⟩

/-- The zero-initialized loan record (EVM mapping default). -/
def zeroLoan : ActiveLoan :=
  ⟨0, 0, 0, 0, 0, 0, 0, 0, 0, false⟩

/-- Chainlink `latestRoundData` result (answer is a signed `int256`). -/
structure RoundData where
  roundId : Nat
  answer : Int
  startedAt : Nat
  updatedAt : Nat
  answeredInRound : Nat
deriving DecidableEq, Repr

/-- The execution environment of one external call: the block timestamp, the
data the configured price feed would return, and whether an outbound
`call{value: amount}` to a recipient succeeds. -/
structure Env where
  blockTimestamp : Nat
  feedData : RoundData
  transferOk : Nat → Nat → Bool

/-- Contract storage of `LendingPlatform` (including the `LoanStorage` maps
and counters it inherits).  `ethUsdFeedSet` models
`address(ethUsdFeed) != address(0)`. -/
structure PlatformState where
  loanRequests : Nat → LoanRequest
  activeLoans : Nat → ActiveLoan
  totalRequests : Nat
  totalLoans : Nat
  borrowerToLoanIds : Nat → List Nat
  lenderToLoanIds : Nat → List Nat
  ethUsdFeedSet : Bool
  demoFixedEthUsdPrice : Nat
  owner : Nat
  paused : Bool
  overdueRepayPenaltyBp : Nat
  liquidationBonusBp : Nat
  maxPriceStalenessSeconds : Nat

/-- Modelled from the spec: `LoanStorage.sol` (imported by
`LendingPlatform.sol`) is not among the sources; per the spec the Ledger
Store keeps a next-request counter and "assigns monotonically increasing
identifiers" "starting at 0", and the query layer scans `0 ..< totalRequests`
("the ids are sequentially assigned (see LoanStorage)"), so `getNextRequestId`
returns `totalRequests` and bumps the counter. -/
def getNextRequestId (s : PlatformState) : Nat × PlatformState :=
  (s.totalRequests, { s with totalRequests := s.totalRequests + 1 })

/-- Modelled from the spec: as `getNextRequestId`, for the loan counter. -/
def getNextLoanId (s : PlatformState) : Nat × PlatformState :=
  (s.totalLoans, { s with totalLoans := s.totalLoans + 1 })

/-- Outbound ETH transfer performed by an operation. -/
structure Transfer where
  recipient : Nat
  amount : Nat
deriving DecidableEq, Repr

/-- Events of `LendingPlatform.sol`. -/
inductive Event where
  | LoanRequested (requestId borrower loanAmount durationInDays interestRate stake : Nat)
  | LoanFunded (loanId requestId lender initialEthPrice : Nat)
  | LoanRepaid (loanId borrower lender repayAmount : Nat)
  | LoanLiquidated (loanId lender collateralTransferred : Nat)
deriving DecidableEq, Repr

/-- Result of a state-changing external call: revert reason, or post-state
with the outbound transfers and emitted events. -/
abbrev OpResult := Except Err (PlatformState × List Transfer × List Event)

/-- The state after an operation: a revert leaves the pre-state unchanged. -/
def resultState (s : PlatformState) (r : OpResult) : PlatformState :=
  match r with
  | Except.ok out => out.1
  | Except.error _ => s

/-- `_getEthUsdPrice`: demo fixed price when no feed is configured; otherwise
require `answer > 0`, then the staleness check
`block.timestamp - updatedAt <= maxPriceStalenessSeconds` (whose checked
subtraction panics when `updatedAt > block.timestamp`), then scale the
8-decimal answer to 1e18 by multiplying with `1e10`. -/
def getEthUsdPrice (env : Env) (s : PlatformState) : Except Err Nat :=
  if s.ethUsdFeedSet = false then
    Except.ok s.demoFixedEthUsdPrice
  else if env.feedData.answer > 0 then
    if env.feedData.updatedAt ≤ env.blockTimestamp then
      if env.blockTimestamp - env.feedData.updatedAt ≤ s.maxPriceStalenessSeconds then
        Except.ok (env.feedData.answer.toNat * 10 ^ 10)
      else
        Except.error Err.StalePrice
    else
      Except.error Err.Underflow
  else
    Except.error Err.InvalidPrice

/-- `calculateAmountDueEth` (view). -/
def calculateAmountDueEth (env : Env) (s : PlatformState) (loanId : Nat) :
    Except Err Nat :=
  let loan := s.activeLoans loanId
  if loan.isRepaid then
    Except.error Err.AlreadyRepaid
  else
    let elapsed :=
      if env.blockTimestamp > loan.startTimestamp then
        env.blockTimestamp - loan.startTimestamp
      else 0
    let principalUsd := loan.loanAmount * loan.initialEthPrice / SCALE
    let interestUsd := principalUsd * loan.interestRate * elapsed / (YEAR_SECONDS * 100)
    let totalUsd := principalUsd + interestUsd
    match getEthUsdPrice env s with
    | Except.error e => Except.error e
    | Except.ok currentPrice => Except.ok (totalUsd * SCALE / currentPrice)

/-- `_applyOverduePenaltyEth`. -/
def applyOverduePenaltyEth (env : Env) (s : PlatformState) (_loanId : Nat)
    (baseDueEth : Nat) : Except Err Nat :=
  if s.overdueRepayPenaltyBp = 0 then
    Except.ok baseDueEth
  else
    match getEthUsdPrice env s with
    | Except.error e => Except.error e
    | Except.ok currentPrice =>
      let baseDueUsd := baseDueEth * currentPrice / SCALE
      let penaltyUsd := baseDueUsd * s.overdueRepayPenaltyBp / 10000
      let totalUsd := baseDueUsd + penaltyUsd
      Except.ok (totalUsd * SCALE / currentPrice)

/-- `createLoanRequest` (payable, `whenNotPaused`).  `msgValue` is
`msg.value`, `sender` is `msg.sender`. -/
def createLoanRequest (_env : Env) (s : PlatformState) (sender msgValue : Nat)
    (loanAmount durationInDays interestRate : Nat)
    (metadataCommitment : Nat) (encryptedCid : String)
    (propertyIdCommitment : Nat) (appraisalEncryptedCid : String)
    (propertyUnits : Nat) : OpResult :=
  if s.paused then Except.error Err.PausedErr
  else if ¬ loanAmount > 0 then Except.error Err.InvalidAmount
  else if ¬ durationInDays > 0 then Except.error Err.InvalidDuration
  else if ¬ msgValue = loanAmount * 2 then Except.error Err.CollateralMismatch
  else if ¬ interestRate ≤ MAX_INTEREST_RATE then Except.error Err.RateTooHigh
  else if ¬ interestRate > 0 then Except.error Err.RateZero
  else
    let requestId := (getNextRequestId s).1
    let s1 := (getNextRequestId s).2
    let request : LoanRequest :=
      { borrower := sender
        loanAmount := loanAmount
        duration := durationInDays
        isActive := true
        stake := msgValue
        interestRate := interestRate
        metadataCommitment := metadataCommitment
        encryptedCid := encryptedCid
        propertyIdCommitment := propertyIdCommitment
        appraisalEncryptedCid := appraisalEncryptedCid
        propertyUnits := propertyUnits }
    let s2 := { s1 with
      loanRequests := fun i => if i = requestId then request else s1.loanRequests i }
    Except.ok (s2, [],
      [Event.LoanRequested requestId sender loanAmount durationInDays interestRate msgValue])

/-- `fundLoanRequest` (payable, `nonReentrant whenNotPaused`).  The fresh
loan record is written field by field in the source, so `isRepaid` of the
storage slot is left untouched. -/
def fundLoanRequest (env : Env) (s : PlatformState) (sender msgValue requestId : Nat) :
    OpResult :=
  if s.paused then Except.error Err.PausedErr
  else
    let request := s.loanRequests requestId
    if ¬ request.isActive = true then Except.error Err.RequestNotActive
    else if ¬ msgValue = request.loanAmount then Except.error Err.AmountMismatch
    else
      match getEthUsdPrice env s with
      | Except.error e => Except.error e
      | Except.ok price =>
        let loanId := (getNextLoanId s).1
        let s1 := (getNextLoanId s).2
        let loan0 := s1.activeLoans loanId
        let loan := { loan0 with
          borrower := request.borrower
          lender := sender
          loanAmount := request.loanAmount
          stake := request.stake
          startTimestamp := env.blockTimestamp
          endTime := env.blockTimestamp + request.duration * 86400
          interestRate := request.interestRate
          initialEthPrice := price
          propertyUnits := request.propertyUnits }
        let s2 := { s1 with
          activeLoans := fun i => if i = loanId then loan else s1.activeLoans i
          loanRequests := fun i =>
            if i = requestId then { request with isActive := false } else s1.loanRequests i
          borrowerToLoanIds := fun a =>
            if a = request.borrower then s1.borrowerToLoanIds a ++ [loanId]
            else s1.borrowerToLoanIds a
          lenderToLoanIds := fun a =>
            if a = sender then s1.lenderToLoanIds a ++ [loanId]
            else s1.lenderToLoanIds a }
        if ¬ env.transferOk request.borrower msgValue = true then
          Except.error Err.TransferFailed
        else
          Except.ok (s2, [Transfer.mk request.borrower msgValue],
            [Event.LoanFunded loanId requestId sender price])

/-- The `dueEth` a repay call settles at: the base amount due, replaced by
`_applyOverduePenaltyEth` when `block.timestamp > loan.endTime` (the local
`dueEth` mutation in `repayLoan`). -/
def repayDueEth (env : Env) (s : PlatformState) (loanId dueEth0 : Nat) : Except Err Nat :=
  if env.blockTimestamp > (s.activeLoans loanId).endTime then
    applyOverduePenaltyEth env s loanId dueEth0
  else Except.ok dueEth0

/-- `repayLoan` (payable, `nonReentrant whenNotPaused`).  The declared
`_repayAmount` parameter is never read by the body. -/
def repayLoan (env : Env) (s : PlatformState) (sender msgValue loanId _repayAmount : Nat) :
    OpResult :=
  if s.paused then Except.error Err.PausedErr
  else if ¬ sender = (s.activeLoans loanId).borrower then Except.error Err.NotBorrower
  else if (s.activeLoans loanId).isRepaid then Except.error Err.AlreadyRepaid
  else if ¬ msgValue > 0 then Except.error Err.InvalidRepayAmount
  else
    match calculateAmountDueEth env s loanId with
    | Except.error e => Except.error e
    | Except.ok dueEth0 =>
      match repayDueEth env s loanId dueEth0 with
      | Except.error e => Except.error e
      | Except.ok dueEth =>
        if ¬ msgValue ≥ dueEth then Except.error Err.InsufficientPayment
        else if ¬ env.transferOk (s.activeLoans loanId).lender dueEth = true then
          Except.error Err.TransferFailed
        else if ¬ env.transferOk (s.activeLoans loanId).borrower (s.activeLoans loanId).stake = true then
          Except.error Err.TransferFailed
        else if msgValue - dueEth > 0 then
          if ¬ env.transferOk (s.activeLoans loanId).borrower (msgValue - dueEth) = true then
            Except.error Err.TransferFailed
          else
            Except.ok
              ({ s with activeLoans := fun i =>
                  if i = loanId then { s.activeLoans loanId with isRepaid := true }
                  else s.activeLoans i },
               [Transfer.mk (s.activeLoans loanId).lender dueEth,
                Transfer.mk (s.activeLoans loanId).borrower (s.activeLoans loanId).stake,
                Transfer.mk (s.activeLoans loanId).borrower (msgValue - dueEth)],
               [Event.LoanRepaid loanId (s.activeLoans loanId).borrower
                  (s.activeLoans loanId).lender dueEth])
        else
          Except.ok
            ({ s with activeLoans := fun i =>
                if i = loanId then { s.activeLoans loanId with isRepaid := true }
                else s.activeLoans i },
             [Transfer.mk (s.activeLoans loanId).lender dueEth,
              Transfer.mk (s.activeLoans loanId).borrower (s.activeLoans loanId).stake],
             [Event.LoanRepaid loanId (s.activeLoans loanId).borrower
                (s.activeLoans loanId).lender dueEth])

/-- `liquidateExpiredLoan` (`nonReentrant`, no pause gate). -/
def liquidateExpiredLoan (env : Env) (s : PlatformState) (sender loanId : Nat) :
    OpResult :=
  let loan := s.activeLoans loanId
  if loan.isRepaid then Except.error Err.AlreadyRepaid
  else if ¬ env.blockTimestamp > loan.endTime then Except.error Err.NotExpired
  else
    let s2 := { s with
      activeLoans := fun i =>
        if i = loanId then { loan with isRepaid := true } else s.activeLoans i }
    let bonus := loan.stake * s.liquidationBonusBp / 10000
    if ¬ bonus ≤ loan.stake then Except.error Err.Underflow
    else
      let toLender := loan.stake - bonus
      if ¬ env.transferOk sender bonus = true then Except.error Err.TransferFailed
      else if ¬ env.transferOk loan.lender toLender = true then Except.error Err.TransferFailed
      else
        Except.ok (s2, [Transfer.mk sender bonus, Transfer.mk loan.lender toLender],
          [Event.LoanLiquidated loanId loan.lender loan.stake])

/-- A demo-mode environment at time `t` where every transfer succeeds. -/
def envAt (t : Nat) : Env :=
  { blockTimestamp := t, feedData := ⟨0, 0, 0, 0, 0⟩, transferOk := fun _ _ => true }

/-- Demo-mode (no feed) state holding the loan record `loan` at every id. -/
def demoState (loan : ActiveLoan) (price : Nat) : PlatformState :=
  { loanRequests := fun _ => zeroRequest
    activeLoans := fun _ => loan
    totalRequests := 0
    totalLoans := 1
    borrowerToLoanIds := fun _ => []
    lenderToLoanIds := fun _ => []
    ethUsdFeedSet := false
    demoFixedEthUsdPrice := price
    owner := 0
    paused := false
    overdueRepayPenaltyBp := 300
    liquidationBonusBp := 300
    maxPriceStalenessSeconds := 3600 }

/-- `pause` (`onlyOwner`). -/
def pauseOp (s : PlatformState) (sender : Nat) : Except Err PlatformState :=
  if ¬ sender = s.owner then Except.error Err.OnlyOwner
  else Except.ok { s with paused := true }

/-- `unpause` (`onlyOwner`). -/
def unpauseOp (s : PlatformState) (sender : Nat) : Except Err PlatformState :=
  if ¬ sender = s.owner then Except.error Err.OnlyOwner
  else Except.ok { s with paused := false }

/-- The example loan of the spec: 10 ETH principal at 5% annual interest,
funded at 2000 USD per ETH. -/
def loanC1 : ActiveLoan :=
  { zeroLoan with
    borrower := 1
    lender := 2
    loanAmount := 10 * 10 ^ 18
    stake := 20 * 10 ^ 18
    endTime := YEAR_SECONDS
    interestRate := 5
    initialEthPrice := 2000 * 10 ^ 18 }

/-- Helper: on an unrepaid loan, `calculateAmountDueEth` reduces to the
principal-plus-interest formula once the oracle price is known. -/
theorem calcDue_formula_helper (env : Env) (s : PlatformState) (loanId p : Nat)
    (hrep : (s.activeLoans loanId).isRepaid = false)
    (hp : getEthUsdPrice env s = Except.ok p) :
    calculateAmountDueEth env s loanId =
      Except.ok
        (((s.activeLoans loanId).loanAmount * (s.activeLoans loanId).initialEthPrice / SCALE
          + (s.activeLoans loanId).loanAmount * (s.activeLoans loanId).initialEthPrice / SCALE
            * (s.activeLoans loanId).interestRate
            * (if env.blockTimestamp > (s.activeLoans loanId).startTimestamp then
                 env.blockTimestamp - (s.activeLoans loanId).startTimestamp
               else 0) / (YEAR_SECONDS * 100)) * SCALE / p) := by
  simp only [calculateAmountDueEth, hrep, Bool.false_eq_true, if_false, hp]

/-- C1: for every unrepaid loan `calculateAmountDueEth` returns exactly
`((loanAmount * initialPrice / 1e18) + (loanAmount * initialPrice / 1e18) *
rate * elapsed / (365 days * 100)) * 1e18 / currentPrice` with truncating
division, where `elapsed = now - start` when `now > start` and `0`
otherwise; on the spec's example (10 units, 5%, both prices 2000e18,
elapsed = 365 days) the result is 10.5 units; and it fails with
`AlreadyRepaid` when `isRepaid` is set. -/
theorem calculateAmountDueEth_spec :
    (∀ env s loanId p, (s.activeLoans loanId).isRepaid = false →
        getEthUsdPrice env s = Except.ok p →
        calculateAmountDueEth env s loanId =
          Except.ok
            (((s.activeLoans loanId).loanAmount * (s.activeLoans loanId).initialEthPrice / SCALE
              + (s.activeLoans loanId).loanAmount * (s.activeLoans loanId).initialEthPrice / SCALE
                * (s.activeLoans loanId).interestRate
                * (if env.blockTimestamp > (s.activeLoans loanId).startTimestamp then
                     env.blockTimestamp - (s.activeLoans loanId).startTimestamp
                   else 0) / (YEAR_SECONDS * 100)) * SCALE / p))
  ∧ (∀ env s loanId, (s.activeLoans loanId).isRepaid = true →
        calculateAmountDueEth env s loanId = Except.error Err.AlreadyRepaid)
  ∧ calculateAmountDueEth (envAt YEAR_SECONDS) (demoState loanC1 (2000 * 10 ^ 18)) 0 =
      Except.ok (105 * 10 ^ 17) := by
  refine ⟨?_, ?_, ?_⟩
  · intro env s loanId p hrep hp
    exact calcDue_formula_helper env s loanId p hrep hp
  · intro env s loanId hrep
    simp only [calculateAmountDueEth, hrep, if_true]
  · rfl

theorem calculateAmountDueEth_spec_witness :
    calculateAmountDueEth (envAt YEAR_SECONDS) (demoState loanC1 (2000 * 10 ^ 18)) 0 =
      Except.ok
        ((loanC1.loanAmount * loanC1.initialEthPrice / SCALE
          + loanC1.loanAmount * loanC1.initialEthPrice / SCALE * loanC1.interestRate
            * (if (envAt YEAR_SECONDS).blockTimestamp > loanC1.startTimestamp then
                 (envAt YEAR_SECONDS).blockTimestamp - loanC1.startTimestamp
               else 0) / (YEAR_SECONDS * 100)) * SCALE / (2000 * 10 ^ 18)) :=
  calculateAmountDueEth_spec.1 (envAt YEAR_SECONDS) (demoState loanC1 (2000 * 10 ^ 18)) 0
    (2000 * 10 ^ 18) rfl rfl

/-- C2: with valid amount, duration and rate and the contract unpaused,
`createLoanRequest` succeeds iff the supplied stake is exactly twice the
loan amount; any other stake fails with `CollateralMismatch` and leaves the
state unchanged. -/
theorem createLoanRequest_collateral_exact :
    ∀ env s sender msgValue amount dur rate mc cid pc acid pu,
      s.paused = false → amount > 0 → dur > 0 → rate > 0 → rate ≤ MAX_INTEREST_RATE →
      ((∃ out, createLoanRequest env s sender msgValue amount dur rate mc cid pc acid pu
          = Except.ok out) ↔ msgValue = amount * 2)
      ∧ (msgValue ≠ amount * 2 →
          createLoanRequest env s sender msgValue amount dur rate mc cid pc acid pu
            = Except.error Err.CollateralMismatch
          ∧ resultState s (createLoanRequest env s sender msgValue amount dur rate mc cid pc acid pu)
            = s) := by
  intro env s sender msgValue amount dur rate mc cid pc acid pu hpause ha hd hr1 hr2
  by_cases hv : msgValue = amount * 2
  · constructor
    · refine ⟨fun _ => hv, fun _ => ?_⟩
      refine ⟨({ s with
          loanRequests := fun i => if i = s.totalRequests then
            { borrower := sender, loanAmount := amount, duration := dur, isActive := true,
              stake := msgValue, interestRate := rate, metadataCommitment := mc,
              encryptedCid := cid, propertyIdCommitment := pc, appraisalEncryptedCid := acid,
              propertyUnits := pu } else s.loanRequests i,
          totalRequests := s.totalRequests + 1 }, [],
        [Event.LoanRequested s.totalRequests sender amount dur rate msgValue]), ?_⟩
      simp only [createLoanRequest, hpause, Bool.false_eq_true, if_false, getNextRequestId]
      rw [if_neg (not_not_intro ha), if_neg (not_not_intro hd), if_neg (not_not_intro hv),
        if_neg (not_not_intro hr2), if_neg (not_not_intro hr1)]
    · intro hv2
      exact absurd hv hv2
  · have herr : createLoanRequest env s sender msgValue amount dur rate mc cid pc acid pu
        = Except.error Err.CollateralMismatch := by
      simp only [createLoanRequest, hpause, Bool.false_eq_true, if_false]
      rw [if_neg (not_not_intro ha), if_neg (not_not_intro hd), if_pos hv]
    refine ⟨?_, fun _ => ⟨herr, by rw [herr]; rfl⟩⟩
    constructor
    · rintro ⟨out, hout⟩
      rw [herr] at hout
      exact absurd hout (by simp)
    · intro h
      exact absurd h hv

theorem createLoanRequest_collateral_exact_witness :
    ((∃ out, createLoanRequest (envAt 0) (demoState zeroLoan SCALE) 1 6 3 30 5 0 "" 0 "" 0
        = Except.ok out) ↔ (6:Nat) = 3 * 2)
    ∧ ((6:Nat) ≠ 3 * 2 →
        createLoanRequest (envAt 0) (demoState zeroLoan SCALE) 1 6 3 30 5 0 "" 0 "" 0
          = Except.error Err.CollateralMismatch
        ∧ resultState (demoState zeroLoan SCALE)
            (createLoanRequest (envAt 0) (demoState zeroLoan SCALE) 1 6 3 30 5 0 "" 0 "" 0)
          = demoState zeroLoan SCALE) :=
  createLoanRequest_collateral_exact (envAt 0) (demoState zeroLoan SCALE) 1 6 3 30 5 0 "" 0 "" 0
    rfl (by decide) (by decide) (by decide) (by decide)

/-- A concrete expired, unrepaid loan used for the liquidation claims. -/
def loanC3 : ActiveLoan :=
  { zeroLoan with
    borrower := 1
    lender := 2
    loanAmount := 6000
    stake := 12345
    endTime := 5
    interestRate := 5
    initialEthPrice := 10 ^ 18 }

/-- C3: for an unrepaid loan, `liquidateExpiredLoan` fails with `NotExpired`
whenever `now ≤ end`; whenever `now > end` (any caller, transfers succeeding,
bonus basis points within range) it succeeds, paying
`bonus = stake * liquidationBonusBp / 10000` to the caller and
`stake - bonus` to the lender; the two payouts sum to exactly the stake and
truncation never pays the caller more than the exact fraction. -/
theorem liquidateExpiredLoan_split :
    ∀ env s sender loanId, (s.activeLoans loanId).isRepaid = false →
      ((¬ env.blockTimestamp > (s.activeLoans loanId).endTime →
          liquidateExpiredLoan env s sender loanId = Except.error Err.NotExpired)
      ∧ (env.blockTimestamp > (s.activeLoans loanId).endTime →
         s.liquidationBonusBp ≤ 10000 →
         env.transferOk sender
             ((s.activeLoans loanId).stake * s.liquidationBonusBp / 10000) = true →
         env.transferOk (s.activeLoans loanId).lender
             ((s.activeLoans loanId).stake
               - (s.activeLoans loanId).stake * s.liquidationBonusBp / 10000) = true →
         liquidateExpiredLoan env s sender loanId =
           Except.ok
             ({ s with activeLoans := fun i =>
                 if i = loanId then { s.activeLoans loanId with isRepaid := true }
                 else s.activeLoans i },
              [Transfer.mk sender ((s.activeLoans loanId).stake * s.liquidationBonusBp / 10000),
               Transfer.mk (s.activeLoans loanId).lender
                 ((s.activeLoans loanId).stake
                   - (s.activeLoans loanId).stake * s.liquidationBonusBp / 10000)],
              [Event.LoanLiquidated loanId (s.activeLoans loanId).lender
                 (s.activeLoans loanId).stake])
         ∧ (s.activeLoans loanId).stake * s.liquidationBonusBp / 10000
             + ((s.activeLoans loanId).stake
                 - (s.activeLoans loanId).stake * s.liquidationBonusBp / 10000)
             = (s.activeLoans loanId).stake
         ∧ ((s.activeLoans loanId).stake * s.liquidationBonusBp / 10000) * 10000
             ≤ (s.activeLoans loanId).stake * s.liquidationBonusBp)) := by
  intro env s sender loanId hrep
  constructor
  · intro hne
    simp only [liquidateExpiredLoan, hrep, Bool.false_eq_true, if_false, if_pos hne]
  · intro hexp hbp hT1 hT2
    have hble : (s.activeLoans loanId).stake * s.liquidationBonusBp / 10000
        ≤ (s.activeLoans loanId).stake := by
      calc (s.activeLoans loanId).stake * s.liquidationBonusBp / 10000
          ≤ (s.activeLoans loanId).stake * 10000 / 10000 :=
            Nat.div_le_div_right (Nat.mul_le_mul_left _ hbp)
        _ = (s.activeLoans loanId).stake := Nat.mul_div_cancel _ (by norm_num)
    refine ⟨?_, Nat.add_sub_cancel' hble, Nat.div_mul_le_self _ _⟩
    simp only [liquidateExpiredLoan, hrep, Bool.false_eq_true, if_false,
      if_neg (not_not_intro hexp), if_neg (not_not_intro hble), hT1, hT2, not_true,
      if_false, ite_true, ite_false]

theorem liquidateExpiredLoan_split_witness :
    ((demoState loanC3 (10 ^ 18)).activeLoans 0).stake
        * (demoState loanC3 (10 ^ 18)).liquidationBonusBp / 10000
      + (((demoState loanC3 (10 ^ 18)).activeLoans 0).stake
          - ((demoState loanC3 (10 ^ 18)).activeLoans 0).stake
              * (demoState loanC3 (10 ^ 18)).liquidationBonusBp / 10000)
      = ((demoState loanC3 (10 ^ 18)).activeLoans 0).stake :=
  ((liquidateExpiredLoan_split (envAt 10) (demoState loanC3 (10 ^ 18)) 3 0 rfl).2
    (by decide) (by decide) rfl rfl).2.1

/-- A tiny loan (1 wei at a 1e18 price) on which integer truncation freezes
the accrued interest at zero. -/
def stateC4 : PlatformState :=
  demoState { zeroLoan with loanAmount := 1, initialEthPrice := 10 ^ 18, interestRate := 5 }
    (10 ^ 18)

/-- C4 counterexample: an unrepaid loan with rate 5 > 0 and a fixed oracle
price whose amount due at elapsed time 0 equals the amount due at elapsed
time 1, so `calculateAmountDueEth` does not strictly increase with elapsed
time even when the rate is positive. -/
theorem calcDue_not_strictly_increasing :
    (stateC4.activeLoans 0).isRepaid = false
    ∧ (stateC4.activeLoans 0).interestRate > 0
    ∧ (envAt 0).blockTimestamp < (envAt 1).blockTimestamp
    ∧ getEthUsdPrice (envAt 0) stateC4 = getEthUsdPrice (envAt 1) stateC4
    ∧ calculateAmountDueEth (envAt 0) stateC4 0 = Except.ok 1
    ∧ calculateAmountDueEth (envAt 1) stateC4 0 = Except.ok 1 :=
  ⟨rfl, by decide, by decide, rfl, rfl, rfl⟩

/-- C4 (amended): for every unrepaid loan and fixed oracle price,
`calculateAmountDueEth` is monotonically non-decreasing in the block
timestamp (hence in elapsed time); by the counterexample, the strict
increase claimed for positive rates fails under truncating division. -/
theorem calcDue_monotone :
    ∀ s loanId e1 e2 p, (s.activeLoans loanId).isRepaid = false →
      getEthUsdPrice e1 s = Except.ok p → getEthUsdPrice e2 s = Except.ok p →
      e1.blockTimestamp ≤ e2.blockTimestamp →
      ∃ d1 d2, calculateAmountDueEth e1 s loanId = Except.ok d1
        ∧ calculateAmountDueEth e2 s loanId = Except.ok d2 ∧ d1 ≤ d2 := by
  intro s loanId e1 e2 p hrep hp1 hp2 ht
  refine ⟨_, _, calcDue_formula_helper e1 s loanId p hrep hp1,
    calcDue_formula_helper e2 s loanId p hrep hp2, ?_⟩
  have hel : (if e1.blockTimestamp > (s.activeLoans loanId).startTimestamp then
        e1.blockTimestamp - (s.activeLoans loanId).startTimestamp else 0)
      ≤ (if e2.blockTimestamp > (s.activeLoans loanId).startTimestamp then
        e2.blockTimestamp - (s.activeLoans loanId).startTimestamp else 0) := by
    by_cases h1t : e1.blockTimestamp > (s.activeLoans loanId).startTimestamp
    · have h2t : e2.blockTimestamp > (s.activeLoans loanId).startTimestamp :=
        lt_of_lt_of_le h1t ht
      rw [if_pos h1t, if_pos h2t]
      exact Nat.sub_le_sub_right ht _
    · rw [if_neg h1t]
      exact Nat.zero_le _
  exact Nat.div_le_div_right (Nat.mul_le_mul_right _
    (Nat.add_le_add_left (Nat.div_le_div_right (Nat.mul_le_mul_left _ hel)) _))

theorem calcDue_monotone_witness :
    ∃ d1 d2, calculateAmountDueEth (envAt 0) stateC4 0 = Except.ok d1
      ∧ calculateAmountDueEth (envAt 1) stateC4 0 = Except.ok d2 ∧ d1 ≤ d2 :=
  calcDue_monotone stateC4 0 (envAt 0) (envAt 1) (10 ^ 18) rfl rfl rfl (by decide)

/-- Helper: a successful `createLoanRequest` does not touch the loans map. -/
theorem createLoanRequest_ok_activeLoans
    {env s sender msgValue a d r mc cid pc acid pu out}
    (h : createLoanRequest env s sender msgValue a d r mc cid pc acid pu = Except.ok out) :
    out.1.activeLoans = s.activeLoans := by
  simp only [createLoanRequest] at h
  repeat' split at h
  all_goals try exact Except.noConfusion h
  rw [← Except.ok.inj h]
  rfl

/-- Helper: a successful `fundLoanRequest` writes the fresh loan record field
by field, leaving the stored `isRepaid` of the slot as it was. -/
theorem fundLoanRequest_ok_activeLoans
    {env s sender msgValue requestId out}
    (h : fundLoanRequest env s sender msgValue requestId = Except.ok out) :
    ∀ i, (out.1.activeLoans i).isRepaid = (s.activeLoans i).isRepaid := by
  simp only [fundLoanRequest] at h
  repeat' split at h
  all_goals try exact Except.noConfusion h
  intro i
  rw [← Except.ok.inj h]
  simp only [getNextLoanId]
  by_cases hL : i = s.totalLoans
  · simp [hL]
  · simp [hL]

/-- Helper: a successful `repayLoan` only flips `isRepaid` of the repaid id. -/
theorem repayLoan_ok_activeLoans
    {env s sender msgValue loanId ra out}
    (h : repayLoan env s sender msgValue loanId ra = Except.ok out) :
    out.1.activeLoans = fun i =>
      if i = loanId then { s.activeLoans loanId with isRepaid := true }
      else s.activeLoans i := by
  unfold repayLoan at h
  by_cases h1 : s.paused = true
  · rw [if_pos h1] at h
    exact Except.noConfusion h
  rw [if_neg h1] at h
  by_cases h2 : ¬ sender = (s.activeLoans loanId).borrower
  · rw [if_pos h2] at h
    exact Except.noConfusion h
  rw [if_neg h2] at h
  by_cases h3 : (s.activeLoans loanId).isRepaid = true
  · rw [if_pos h3] at h
    exact Except.noConfusion h
  rw [if_neg h3] at h
  by_cases h4 : ¬ msgValue > 0
  · rw [if_pos h4] at h
    exact Except.noConfusion h
  rw [if_neg h4] at h
  cases hc : calculateAmountDueEth env s loanId with
  | error e =>
    simp only [hc] at h
    exact Except.noConfusion h
  | ok dueEth0 =>
    simp only [hc] at h
    cases hd : repayDueEth env s loanId dueEth0 with
    | error e =>
      simp only [hd] at h
      exact Except.noConfusion h
    | ok dueEth =>
      simp only [hd] at h
      by_cases h5 : ¬ msgValue ≥ dueEth
      · rw [if_pos h5] at h
        exact Except.noConfusion h
      rw [if_neg h5] at h
      by_cases h6 : ¬ env.transferOk (s.activeLoans loanId).lender dueEth = true
      · rw [if_pos h6] at h
        exact Except.noConfusion h
      rw [if_neg h6] at h
      by_cases h7 : ¬ env.transferOk (s.activeLoans loanId).borrower
          (s.activeLoans loanId).stake = true
      · rw [if_pos h7] at h
        exact Except.noConfusion h
      rw [if_neg h7] at h
      by_cases h8 : msgValue - dueEth > 0
      · rw [if_pos h8] at h
        by_cases h9 : ¬ env.transferOk (s.activeLoans loanId).borrower (msgValue - dueEth) = true
        · rw [if_pos h9] at h
          exact Except.noConfusion h
        rw [if_neg h9] at h
        rw [← Except.ok.inj h]
      · rw [if_neg h8] at h
        rw [← Except.ok.inj h]

/-- Helper: a successful `liquidateExpiredLoan` only flips `isRepaid` of the
liquidated id. -/
theorem liquidateExpiredLoan_ok_activeLoans
    {env s sender loanId out}
    (h : liquidateExpiredLoan env s sender loanId = Except.ok out) :
    out.1.activeLoans = fun i =>
      if i = loanId then { s.activeLoans loanId with isRepaid := true }
      else s.activeLoans i := by
  simp only [liquidateExpiredLoan] at h
  repeat' split at h
  all_goals try exact Except.noConfusion h
  rw [← Except.ok.inj h]

/-- C5: `isRepaid` is terminal.  On a loan whose flag is set, a repay by the
borrower and any liquidation both fail with `AlreadyRepaid` (reverting, so
the state is unchanged), and no state-changing operation of the contract
ever resets the flag to `false` (funding writes its fresh record field by
field and never touches `isRepaid`). -/
theorem isRepaid_terminal :
    (∀ env s sender msgValue loanId ra, s.paused = false →
        sender = (s.activeLoans loanId).borrower →
        (s.activeLoans loanId).isRepaid = true →
        repayLoan env s sender msgValue loanId ra = Except.error Err.AlreadyRepaid)
  ∧ (∀ env s sender loanId, (s.activeLoans loanId).isRepaid = true →
        liquidateExpiredLoan env s sender loanId = Except.error Err.AlreadyRepaid)
  ∧ (∀ env s sender msgValue a d r mc cid pc acid pu loanId,
        (s.activeLoans loanId).isRepaid = true →
        ((resultState s (createLoanRequest env s sender msgValue a d r mc cid pc acid pu)).activeLoans
            loanId).isRepaid = true)
  ∧ (∀ env s sender msgValue requestId loanId, (s.activeLoans loanId).isRepaid = true →
        ((resultState s (fundLoanRequest env s sender msgValue requestId)).activeLoans
            loanId).isRepaid = true)
  ∧ (∀ env s sender msgValue loanId2 ra loanId, (s.activeLoans loanId).isRepaid = true →
        ((resultState s (repayLoan env s sender msgValue loanId2 ra)).activeLoans
            loanId).isRepaid = true)
  ∧ (∀ env s sender loanId2 loanId, (s.activeLoans loanId).isRepaid = true →
        ((resultState s (liquidateExpiredLoan env s sender loanId2)).activeLoans
            loanId).isRepaid = true) := by
  refine ⟨?_, ?_, ?_, ?_, ?_, ?_⟩
  · intro env s sender msgValue loanId ra hpause hb hrep
    simp only [repayLoan, hpause, Bool.false_eq_true, if_false,
      if_neg (not_not_intro hb), hrep, if_true]
  · intro env s sender loanId hrep
    simp only [liquidateExpiredLoan, hrep, if_true]
  · intro env s sender msgValue a d r mc cid pc acid pu loanId hrep
    cases hop : createLoanRequest env s sender msgValue a d r mc cid pc acid pu with
    | error e => simp only [resultState]; exact hrep
    | ok out =>
      simp only [resultState, createLoanRequest_ok_activeLoans hop]
      exact hrep
  · intro env s sender msgValue requestId loanId hrep
    cases hop : fundLoanRequest env s sender msgValue requestId with
    | error e => simp only [resultState]; exact hrep
    | ok out =>
      simp only [resultState, fundLoanRequest_ok_activeLoans hop]
      exact hrep
  · intro env s sender msgValue loanId2 ra loanId hrep
    cases hop : repayLoan env s sender msgValue loanId2 ra with
    | error e => simp only [resultState]; exact hrep
    | ok out =>
      simp only [resultState, repayLoan_ok_activeLoans hop]
      by_cases hL : loanId = loanId2
      · simp [hL]
      · simp only [if_neg hL]
        exact hrep
  · intro env s sender loanId2 loanId hrep
    cases hop : liquidateExpiredLoan env s sender loanId2 with
    | error e => simp only [resultState]; exact hrep
    | ok out =>
      simp only [resultState, liquidateExpiredLoan_ok_activeLoans hop]
      by_cases hL : loanId = loanId2
      · simp [hL]
      · simp only [if_neg hL]
        exact hrep

theorem isRepaid_terminal_witness :
    liquidateExpiredLoan (envAt 10) (demoState { loanC3 with isRepaid := true } (10 ^ 18)) 3 0
      = Except.error Err.AlreadyRepaid :=
  isRepaid_terminal.2.1 (envAt 10) (demoState { loanC3 with isRepaid := true } (10 ^ 18)) 3 0
    (by rfl)

/-- A state whose oracle feed is configured, used for the staleness claims. -/
def feedStateC6 : PlatformState :=
  { demoState loanC1 (2000 * 10 ^ 18) with ethUsdFeedSet := true }

/-- A feed round answered at time 0 read at time 10000, past the 3600 s
staleness bound. -/
def envStale : Env :=
  { blockTimestamp := 10000
    feedData := ⟨1, 2000 * 10 ^ 8, 0, 0, 1⟩
    transferOk := fun _ _ => true }

/-- C6: with a feed configured, `_getEthUsdPrice` fails with `InvalidPrice`
on `answer ≤ 0` and with `StalePrice` when `now - updatedAt` exceeds the
staleness bound; the operator-set fixed price is returned only when no feed
is configured; and the price error propagates to (fails) funding,
amount-due computation and repayment. -/
theorem oracle_staleness :
    (∀ env s, s.ethUsdFeedSet = true → env.feedData.answer ≤ 0 →
        getEthUsdPrice env s = Except.error Err.InvalidPrice)
  ∧ (∀ env s, s.ethUsdFeedSet = true → env.feedData.answer > 0 →
        env.feedData.updatedAt ≤ env.blockTimestamp →
        env.blockTimestamp - env.feedData.updatedAt > s.maxPriceStalenessSeconds →
        getEthUsdPrice env s = Except.error Err.StalePrice)
  ∧ (∀ env s, s.ethUsdFeedSet = false →
        getEthUsdPrice env s = Except.ok s.demoFixedEthUsdPrice)
  ∧ (∀ env s sender msgValue requestId e, s.paused = false →
        (s.loanRequests requestId).isActive = true →
        msgValue = (s.loanRequests requestId).loanAmount →
        getEthUsdPrice env s = Except.error e →
        fundLoanRequest env s sender msgValue requestId = Except.error e)
  ∧ (∀ env s loanId e, (s.activeLoans loanId).isRepaid = false →
        getEthUsdPrice env s = Except.error e →
        calculateAmountDueEth env s loanId = Except.error e)
  ∧ (∀ env s sender msgValue loanId ra e, s.paused = false →
        sender = (s.activeLoans loanId).borrower →
        (s.activeLoans loanId).isRepaid = false → msgValue > 0 →
        getEthUsdPrice env s = Except.error e →
        repayLoan env s sender msgValue loanId ra = Except.error e) := by
  refine ⟨?_, ?_, ?_, ?_, ?_, ?_⟩
  · intro env s hfeed hans
    simp only [getEthUsdPrice, hfeed, Bool.true_eq_false, if_false,
      if_neg (not_lt.mpr hans)]
  · intro env s hfeed hans hupd hstale
    simp only [getEthUsdPrice, hfeed, Bool.true_eq_false, if_false, if_pos hans,
      if_pos hupd, if_neg (not_le.mpr hstale)]
  · intro env s hfeed
    simp [getEthUsdPrice, hfeed]
  · intro env s sender msgValue requestId e hpause hact hval herr
    simp [fundLoanRequest, hpause, hact, hval, herr]
  · intro env s loanId e hrep herr
    simp only [calculateAmountDueEth, hrep, Bool.false_eq_true, if_false, herr]
  · intro env s sender msgValue loanId ra e hpause hb hrep hval herr
    have hcalc : calculateAmountDueEth env s loanId = Except.error e := by
      simp only [calculateAmountDueEth, hrep, Bool.false_eq_true, if_false, herr]
    simp only [repayLoan, hpause, Bool.false_eq_true, if_false,
      if_neg (not_not_intro hb), hrep, if_neg (not_not_intro hval), hcalc]

theorem oracle_staleness_witness :
    getEthUsdPrice envStale feedStateC6 = Except.error Err.StalePrice :=
  oracle_staleness.2.1 envStale feedStateC6 rfl (by decide) (by decide) (by decide)

/-- `{ s with paused := b }`, as written by `pause` / `unpause`. -/
def setPaused (s : PlatformState) (b : Bool) : PlatformState :=
  { s with paused := b }

/-- C7: while paused, `createLoanRequest`, `fundLoanRequest` and `repayLoan`
all fail with the pause error (reverting, so no state changes), while
`liquidateExpiredLoan` ignores the pause flag entirely; and running an
operation after an unpause is identical to running it on a never-paused
state. -/
theorem pause_gating :
    (∀ env s sender msgValue a d r mc cid pc acid pu, s.paused = true →
        createLoanRequest env s sender msgValue a d r mc cid pc acid pu
          = Except.error Err.PausedErr)
  ∧ (∀ env s sender msgValue requestId, s.paused = true →
        fundLoanRequest env s sender msgValue requestId = Except.error Err.PausedErr)
  ∧ (∀ env s sender msgValue loanId ra, s.paused = true →
        repayLoan env s sender msgValue loanId ra = Except.error Err.PausedErr)
  ∧ (∀ env s sender loanId b,
        liquidateExpiredLoan env (setPaused s b) sender loanId =
          (liquidateExpiredLoan env s sender loanId).map
            (fun out => (setPaused out.1 b, out.2)))
  ∧ (∀ env s sender msgValue a d r mc cid pc acid pu b,
        createLoanRequest env (setPaused (setPaused s b) false)
            sender msgValue a d r mc cid pc acid pu
          = createLoanRequest env (setPaused s false)
              sender msgValue a d r mc cid pc acid pu)
  ∧ (∀ env s sender msgValue requestId b,
        fundLoanRequest env (setPaused (setPaused s b) false)
            sender msgValue requestId
          = fundLoanRequest env (setPaused s false) sender msgValue requestId)
  ∧ (∀ env s sender msgValue loanId ra b,
        repayLoan env (setPaused (setPaused s b) false)
            sender msgValue loanId ra
          = repayLoan env (setPaused s false) sender msgValue loanId ra) := by
  refine ⟨?_, ?_, ?_, ?_, ?_, ?_, ?_⟩
  · intro env s sender msgValue a d r mc cid pc acid pu hpause
    simp only [createLoanRequest, hpause, if_true]
  · intro env s sender msgValue requestId hpause
    simp only [fundLoanRequest, hpause, if_true]
  · intro env s sender msgValue loanId ra hpause
    simp only [repayLoan, hpause, if_true]
  · intro env s sender loanId b
    simp only [liquidateExpiredLoan, setPaused]
    split_ifs <;> rfl
  · intro env s sender msgValue a d r mc cid pc acid pu b
    rfl
  · intro env s sender msgValue requestId b
    rfl
  · intro env s sender msgValue loanId ra b
    rfl

theorem pause_gating_witness :
    repayLoan (envAt 0) { demoState loanC1 (2000 * 10 ^ 18) with paused := true } 1 100 0 0
      = Except.error Err.PausedErr :=
  pause_gating.2.2.1 (envAt 0) { demoState loanC1 (2000 * 10 ^ 18) with paused := true }
    1 100 0 0 rfl

/-- An expired loan (endTime 0) with round numbers for the penalty claim:
1000 wei principal at a 1e18 price, so the base due is 1000 and the 300 bp
penalty makes it 1030. -/
def loanC8 : ActiveLoan :=
  { zeroLoan with
    borrower := 1
    lender := 2
    loanAmount := 1000
    stake := 2000
    endTime := 0
    interestRate := 5
    initialEthPrice := 10 ^ 18 }

/-- C8: the amount a successful repay settles at (the `repayAmount` of its
`LoanRepaid` event) equals, when `now > end` and the penalty is non-zero,
the base due converted to reference value at the current price
(`base * p / 1e18`, truncating), increased by `penaltyBp / 10000` of that
value and converted back at the same price; when `now ≤ end` or
`penaltyBp = 0` it is the base due unchanged. -/
theorem repay_overdue_penalty :
    ∀ env s sender msgValue loanId ra p base s2 ts evs,
      getEthUsdPrice env s = Except.ok p →
      calculateAmountDueEth env s loanId = Except.ok base →
      repayLoan env s sender msgValue loanId ra = Except.ok (s2, ts, evs) →
      ((env.blockTimestamp > (s.activeLoans loanId).endTime →
          s.overdueRepayPenaltyBp ≠ 0 →
          evs = [Event.LoanRepaid loanId (s.activeLoans loanId).borrower
            (s.activeLoans loanId).lender
            ((base * p / SCALE + base * p / SCALE * s.overdueRepayPenaltyBp / 10000)
              * SCALE / p)])
      ∧ ((¬ env.blockTimestamp > (s.activeLoans loanId).endTime
            ∨ s.overdueRepayPenaltyBp = 0) →
          evs = [Event.LoanRepaid loanId (s.activeLoans loanId).borrower
            (s.activeLoans loanId).lender base])) := by
  intro env s sender msgValue loanId ra p base s2 ts evs hp hcalc hrepay
  have main : ∀ dueEth,
      repayDueEth env s loanId base = Except.ok dueEth →
      evs = [Event.LoanRepaid loanId (s.activeLoans loanId).borrower
        (s.activeLoans loanId).lender dueEth] := by
    intro dueEth hdue
    unfold repayLoan at hrepay
    by_cases h1 : s.paused = true
    · rw [if_pos h1] at hrepay
      exact Except.noConfusion hrepay
    rw [if_neg h1] at hrepay
    by_cases h2 : ¬ sender = (s.activeLoans loanId).borrower
    · rw [if_pos h2] at hrepay
      exact Except.noConfusion hrepay
    rw [if_neg h2] at hrepay
    by_cases h3 : (s.activeLoans loanId).isRepaid = true
    · rw [if_pos h3] at hrepay
      exact Except.noConfusion hrepay
    rw [if_neg h3] at hrepay
    by_cases h4 : ¬ msgValue > 0
    · rw [if_pos h4] at hrepay
      exact Except.noConfusion hrepay
    rw [if_neg h4] at hrepay
    simp only [hcalc, hdue] at hrepay
    by_cases h5 : ¬ msgValue ≥ dueEth
    · rw [if_pos h5] at hrepay
      exact Except.noConfusion hrepay
    rw [if_neg h5] at hrepay
    by_cases h6 : ¬ env.transferOk (s.activeLoans loanId).lender dueEth = true
    · rw [if_pos h6] at hrepay
      exact Except.noConfusion hrepay
    rw [if_neg h6] at hrepay
    by_cases h7 : ¬ env.transferOk (s.activeLoans loanId).borrower
        (s.activeLoans loanId).stake = true
    · rw [if_pos h7] at hrepay
      exact Except.noConfusion hrepay
    rw [if_neg h7] at hrepay
    by_cases h8 : msgValue - dueEth > 0
    · rw [if_pos h8] at hrepay
      by_cases h9 : ¬ env.transferOk (s.activeLoans loanId).borrower (msgValue - dueEth) = true
      · rw [if_pos h9] at hrepay
        exact Except.noConfusion hrepay
      rw [if_neg h9] at hrepay
      exact ((Prod.mk.injEq _ _ _ _).mp
        ((Prod.mk.injEq _ _ _ _).mp (Except.ok.inj hrepay)).2).2.symm ▸ rfl
    · rw [if_neg h8] at hrepay
      exact ((Prod.mk.injEq _ _ _ _).mp
        ((Prod.mk.injEq _ _ _ _).mp (Except.ok.inj hrepay)).2).2.symm ▸ rfl
  constructor
  · intro hover hbp
    refine main _ ?_
    simp only [repayDueEth, if_pos hover, applyOverduePenaltyEth, if_neg hbp, hp]
  · intro hcase
    refine main _ ?_
    cases hcase with
    | inl hnover => simp only [repayDueEth, if_neg hnover]
    | inr hbp0 =>
      by_cases hover : env.blockTimestamp > (s.activeLoans loanId).endTime
      · simp [repayDueEth, hover, applyOverduePenaltyEth, hbp0]
      · simp only [repayDueEth, if_neg hover]

theorem repay_overdue_penalty_witness :
    ([Event.LoanRepaid 0 1 2 1030] : List Event) =
      [Event.LoanRepaid 0 1 2
        ((1000 * 10 ^ 18 / SCALE + 1000 * 10 ^ 18 / SCALE * 300 / 10000)
          * SCALE / 10 ^ 18)] :=
  (repay_overdue_penalty (envAt 1) (demoState loanC8 (10 ^ 18)) 1 2000 0 0 (10 ^ 18) 1000
      { demoState loanC8 (10 ^ 18) with activeLoans := fun i =>
          if i = 0 then { loanC8 with isRepaid := true }
          else (demoState loanC8 (10 ^ 18)).activeLoans i }
      [Transfer.mk 2 1030, Transfer.mk 1 2000, Transfer.mk 1 970]
      [Event.LoanRepaid 0 1 2 1030]
      (by rfl) (by rfl) (by rfl)).1 (by decide) (by decide)

/-- C9: liquidating a never-allocated loan id does not fail with any
not-found error: the zero-initialized record is unrepaid with `endTime = 0`,
so whenever `now > 0` (and zero-value transfers go through, as they do on
chain) the call succeeds, marks the phantom record repaid, pays a zero bonus
to the caller and zero collateral to the zero address, and emits a
`LoanLiquidated` event. -/
theorem liquidate_phantom :
    ∀ env s sender loanId, s.activeLoans loanId = zeroLoan →
      env.blockTimestamp > 0 →
      env.transferOk sender 0 = true → env.transferOk 0 0 = true →
      liquidateExpiredLoan env s sender loanId =
        Except.ok ({ s with activeLoans := fun i =>
            if i = loanId then { zeroLoan with isRepaid := true } else s.activeLoans i },
          [Transfer.mk sender 0, Transfer.mk 0 0],
          [Event.LoanLiquidated loanId 0 0]) := by
  intro env s sender loanId hzero ht hT1 hT2
  simp [liquidateExpiredLoan, hzero, zeroLoan, ht, hT1, hT2]

theorem liquidate_phantom_witness :
    liquidateExpiredLoan (envAt 5) (demoState zeroLoan SCALE) 7 3 =
      Except.ok ({ demoState zeroLoan SCALE with activeLoans := fun i =>
          if i = 3 then { zeroLoan with isRepaid := true }
          else (demoState zeroLoan SCALE).activeLoans i },
        [Transfer.mk 7 0, Transfer.mk 0 0],
        [Event.LoanLiquidated 3 0 0]) :=
  liquidate_phantom (envAt 5) (demoState zeroLoan SCALE) 7 3 rfl (by decide) rfl rfl

/-- C10: the declared `_repayAmount` parameter of `repayLoan` is never read:
two invocations differing only in it have identical outcomes (result state,
transfers, events, or revert reason alike). -/
theorem repayLoan_ignores_repayAmount :
    ∀ env s sender msgValue loanId ra1 ra2,
      repayLoan env s sender msgValue loanId ra1
        = repayLoan env s sender msgValue loanId ra2 :=
  fun _ _ _ _ _ _ _ => rfl

end DLoan
